import Mathlib

/-!
Verification of the result-analysis and report-synthesis engine of the
AI-Plagiarism-Detection repository (`script.py` and `visualize.py`).

The analysis document handed to the engine is an arbitrary JSON-like
mapping.  We embed it as `JValue`, and embed the Python functions that
consume it as Lean functions in the `Except PyErr` monad: a Python
exception (KeyError, TypeError, AttributeError, ValueError) becomes an
`Except.error`.  Pure Python expressions become pure Lean expressions.

Conventions of the embedding:
* a Python `dict` is a `JValue.obj` (an insertion-ordered association
  list; the source never creates duplicate keys);
* numbers are embedded as rationals (the scan documents are parsed from
  JSON decimal text; the claims only evaluate numeric formatting at
  values that are exact in binary floating point as well);
* `str(x)` for container values is not modelled precisely (`pyStr`
  returns a placeholder for lists/dicts); no claim interpolates a
  container into a string;
* `f"{x:.1f}"` / `f"{x:.2%}"` are modelled by `formatFixed`, which
  performs round-half-even at the requested number of decimals exactly
  as Python's fixed-point formatting does on the embedded rational
  (Python's `-0.0` sign preservation is not modelled; no claim touches
  negative values).
-/

inductive JValue where
  | null
  | bool (b : Bool)
  | num (q : ℚ)
  | str (s : String)
  | arr (elems : List JValue)
  | obj (fields : List (String × JValue))

/-- A Python error raised by the embedded code. -/
inductive PyErr where
  | keyError (key : String)
  | typeError
  | attributeError
  | valueError
deriving DecidableEq, Repr

deriving instance DecidableEq for Except

/-- A top-level analysis document: the `Dict` passed to `format_results`
and stored in `OriginalityVisualizer.data`. -/
abbrev Doc := List (String × JValue)

/-- Python truthiness (`bool(x)`) of an embedded value. -/
def truthy : JValue → Bool
  | .null => false
  | .bool b => b
  | .num q => decide (q ≠ 0)
  | .str s => decide (s ≠ "")
  | .arr xs => !xs.isEmpty
  | .obj fs => !fs.isEmpty

/-- `k in d` for the top-level document dict. -/
def docHasKey (d : Doc) (k : String) : Bool :=
  (d.lookup k).isSome

/-- `d.get(k)` (default `None`) for the top-level document dict; also
used for `d[k]` at places where the source has already established that
the key is present. -/
def docGetD (d : Doc) (k : String) : JValue :=
  (d.lookup k).getD .null

/-- `d.get(k, {})` for the top-level document dict. -/
def docGetObjD (d : Doc) (k : String) : JValue :=
  (d.lookup k).getD (.obj [])

/-- `k in result and result[k]`: the section guard used throughout
`format_results`. -/
def sectionTruthy (d : Doc) (k : String) : Bool :=
  docHasKey d k && truthy (docGetD d k)

/-- `v.get(k, dflt)`: calling `.get` on a non-dict raises
`AttributeError`. -/
def pyGet (v : JValue) (k : String) (dflt : JValue) : Except PyErr JValue :=
  match v with
  | .obj fs => .ok ((fs.lookup k).getD dflt)
  | _ => .error .attributeError

/-- `v.get(k)` with the implicit `None` default. -/
def pyGetOpt (v : JValue) (k : String) : Except PyErr JValue :=
  pyGet v k .null

/-- `v[k]` with a string key: `KeyError` when the key is missing,
`TypeError` when `v` is not a dict. -/
def pySubscript (v : JValue) (k : String) : Except PyErr JValue :=
  match v with
  | .obj fs =>
      match fs.lookup k with
      | some x => .ok x
      | none => .error (.keyError k)
  | _ => .error .typeError

/-- `p.isPrefixOf l` on character lists, by word-for-word comparison. -/
def listIsPrefix : List Char → List Char → Bool
  | [], _ => true
  | _ :: _, [] => false
  | a :: ps, b :: ls => a == b && listIsPrefix ps ls

/-- Substring test on character lists. -/
def listContainsSub (hay pat : List Char) : Bool :=
  match hay with
  | [] => pat.isEmpty
  | _ :: t => listIsPrefix pat hay || listContainsSub t pat

/-- `pat in hay` for strings (Python substring test). -/
def strContainsSub (hay pat : String) : Bool :=
  listContainsSub hay.data pat.data

/-- `k in v` for an arbitrary value: dict key test, string substring
test, list membership (string elements only can match a string), and
`TypeError` for scalars. -/
def pyContainsKey (k : String) (v : JValue) : Except PyErr Bool :=
  match v with
  | .obj fs => .ok (fs.lookup k).isSome
  | .str s => .ok (strContainsSub s k)
  | .arr xs =>
      .ok (xs.any fun e =>
        match e with
        | .str s => s == k
        | _ => false)
  | _ => .error .typeError

/-- `len(v)`: defined for sequences, strings and dicts. -/
def pyLen : JValue → Except PyErr Nat
  | .arr xs => .ok xs.length
  | .str s => .ok s.length
  | .obj fs => .ok fs.length
  | _ => .error .typeError

/-- Iterating a value (`for x in v`, `pd.DataFrame(v)`): lists yield
their elements, strings their characters, dicts their keys. -/
def pyIterate : JValue → Except PyErr (List JValue)
  | .arr xs => .ok xs
  | .str s => .ok (s.data.map fun c => .str (String.singleton c))
  | .obj fs => .ok (fs.map fun p => JValue.str p.1)
  | _ => .error .typeError

/-- `s * n` for a string. -/
def strRepeat (s : String) (n : Nat) : String :=
  String.join (List.replicate n s)

/-- `v * n` for an integer `n`: numbers multiply, booleans coerce to
0/1, strings and lists repeat, other operands raise `TypeError`. -/
def pyMulNat (v : JValue) (n : Nat) : Except PyErr JValue :=
  match v with
  | .num q => .ok (.num (q * n))
  | .bool b => .ok (.num ((if b then (1 : ℚ) else 0) * n))
  | .str s => .ok (.str (strRepeat s n))
  | .arr xs => .ok (.arr (List.replicate n xs).flatten)
  | _ => .error .typeError

/-- `c < v` for a numeric literal `c`: numbers and booleans compare,
anything else raises `TypeError`. -/
def pyGtNum (v : JValue) (c : ℚ) : Except PyErr Bool :=
  match v with
  | .num q => .ok (decide (c < q))
  | .bool b => .ok (decide (c < (if b then (1 : ℚ) else 0)))
  | _ => .error .typeError

/-- Floor of a rational, computed with flooring integer division. -/
def ratFloor (q : ℚ) : ℤ :=
  q.num.fdiv q.den

/-- Truncation toward zero (`astype(int)` on a float cell). -/
def ratTrunc (q : ℚ) : ℤ :=
  if 0 ≤ q then ratFloor q else -ratFloor (-q)

/-- Round to the nearest integer, ties to even: the rounding performed
by Python's fixed-point formatting. -/
def roundHalfEven (q : ℚ) : ℤ :=
  let f := ratFloor q
  let frac := q - f
  if frac < 1 / 2 then f
  else if 1 / 2 < frac then f + 1
  else if f % 2 = 0 then f else f + 1

/-- The `prec` decimal digits of `m < 10 ^ prec`, most significant
first. -/
def padDigits : Nat → Nat → String
  | 0, _ => ""
  | p + 1, m => padDigits p (m / 10) ++ String.singleton (Nat.digitChar (m % 10))

/-- `f"{q:.{prec}f}"`: fixed-point rendering of a rational with
`prec` decimals, rounding half to even. -/
def formatFixed (prec : Nat) (q : ℚ) : String :=
  let n := roundHalfEven (q * ((10 : ℚ) ^ prec))
  let m := n.natAbs
  (if n < 0 then "-" else "") ++ toString (m / 10 ^ prec) ++ "." ++ padDigits prec (m % 10 ^ prec)

/-- `f"{v:.1f}"` on an embedded value: numbers (and booleans, which are
ints in Python) format; any other type raises `ValueError` ("Unknown
format code 'f' for object of type 'str'"). -/
def pyFormat1f (v : JValue) : Except PyErr String :=
  match v with
  | .num q => .ok (formatFixed 1 q)
  | .bool b => .ok (formatFixed 1 (if b then 1 else 0))
  | _ => .error .valueError

/-- `f"{v:.2%}"` on an embedded value: numbers and booleans are scaled
by 100 and formatted with two decimals and a percent sign; any other
type — in particular the `'N/A'` string default — raises `ValueError`. -/
def pyFormatPercent2 (v : JValue) : Except PyErr String :=
  match v with
  | .num q => .ok (formatFixed 2 (q * 100) ++ "%")
  | .bool b => .ok (formatFixed 2 ((if b then (1 : ℚ) else 0) * 100) ++ "%")
  | _ => .error .valueError

/-- Decimal text of a rational; exact (`str(n)`) for integers, which is
the only case the claims interpolate into output text. -/
def ratRepr (q : ℚ) : String :=
  if q.den = 1 then toString q.num else toString q.num ++ "/" ++ toString q.den

/-- `str(v)` / f-string interpolation without a format spec.  Container
reprs are abbreviated (see the embedding notes at the top). -/
def pyStr : JValue → String
  | .null => "None"
  | .bool b => if b then "True" else "False"
  | .num q => ratRepr q
  | .str s => s
  | .arr _ => "[...]"
  | .obj _ => "\x7b...\x7d"

/-- `format_results` (`script.py`, lines 113–170): renders a scan
document as a plain-text summary.  The list `output` is threaded
through the conditional blocks exactly as the source appends to it. -/
def format_results (result : Doc) : Except PyErr String :=
  if docHasKey result "error" then
    .ok ("Error: " ++ pyStr (docGetD result "error"))
  else do
    let output : List String := []
    let output ←
      if sectionTruthy result "ai" then do
        let ai_data := docGetD result "ai"
        let output ← do
          let b ← pyContainsKey "classification" ai_data
          if b then do
            let cls ← pySubscript ai_data "classification"
            let a ← pyGet cls "AI" (.str "N/A")
            let o ← pyGet cls "Original" (.str "N/A")
            pure (output ++ ["\nAI Detection Results:",
              "AI Probability: " ++ pyStr a,
              "Original Probability: " ++ pyStr o])
          else pure output
        let b ← pyContainsKey "confidence" ai_data
        if b then do
          let conf ← pySubscript ai_data "confidence"
          let a ← pyGet conf "AI" (.str "N/A")
          let sa ← pyFormatPercent2 a
          let o ← pyGet conf "Original" (.str "N/A")
          let so ← pyFormatPercent2 o
          pure (output ++ ["\nConfidence Scores:",
            "AI Confidence: " ++ sa,
            "Original Confidence: " ++ so])
        else pure output
      else pure output
    let output ←
      if sectionTruthy result "plagiarism" then do
        let plag_data := docGetD result "plagiarism"
        let output := output ++ ["\nPlagiarism Results:"]
        let output ← do
          let b ← pyContainsKey "score" plag_data
          if b then do
            let s ← pySubscript plag_data "score"
            pure (output ++ ["Plagiarism Score: " ++ pyStr s ++ "%"])
          else pure output
        let b ← pyContainsKey "matches" plag_data
        let mv ← if b then pySubscript plag_data "matches" else pure .null
        if b && truthy mv then do
          let ms ← pyIterate mv
          let lines ← ms.mapM fun m => do
            let u ← pyGet m "url" (.str "N/A")
            let s ← pyGet m "score" (.str "N/A")
            pure ("- " ++ pyStr u ++ ": " ++ pyStr s ++ "% match")
          pure (output ++ ["\nPlagiarism Matches:"] ++ lines)
        else pure output
      else pure output
    let output ←
      if sectionTruthy result "readability" then do
        let read_data := docGetD result "readability"
        let output := output ++ ["\nReadability Metrics:"]
        let output ← do
          let b ← pyContainsKey "textStats" read_data
          if b then do
            let stats ← pySubscript read_data "textStats"
            let w ← pyGet stats "uniqueWordCount" (.str "N/A")
            let sc ← pyGet stats "sentenceCount" (.str "N/A")
            let sp ← pyGet stats "averageSpeakingTime" (.str "N/A")
            let rd ← pyGet stats "averageReadingTime" (.str "N/A")
            pure (output ++ ["Word Count: " ++ pyStr w,
              "Sentence Count: " ++ pyStr sc,
              "Average Speaking Time: " ++ pyStr sp ++ " minutes",
              "Average Reading Time: " ++ pyStr rd ++ " minutes"])
          else pure output
        let b ← pyContainsKey "readability" read_data
        if b then do
          let scores ← pySubscript read_data "readability"
          let f ← pyGet scores "fleschReadingEase" (.str "N/A")
          let g ← pyGet scores "fleschGradeLevel" (.str "N/A")
          pure (output ++ ["\nReadability Scores:",
            "Flesch Reading Ease: " ++ pyStr f,
            "Flesch-Kincaid Grade Level: " ++ pyStr g])
        else pure output
      else pure output
    let output ←
      if sectionTruthy result "grammarSpelling" then do
        let b ← pyContainsKey "error" (docGetD result "grammarSpelling")
        if b then do
          let e ← pySubscript (docGetD result "grammarSpelling") "error"
          pure (output ++ ["\nGrammar & Spelling: " ++ pyStr e])
        else pure output
      else pure output
    let output ←
      if sectionTruthy result "credits" then do
        let credits := docGetD result "credits"
        let u ← pyGet credits "used" (.str "N/A")
        let b ← pyGet credits "base_credits" (.str "N/A")
        let s ← pyGet credits "subscription_credits" (.str "N/A")
        pure (output ++ ["\nCredits Information:",
          "Used Credits: " ++ pyStr u,
          "Base Credits: " ++ pyStr b,
          "Subscription Credits: " ++ pyStr s])
      else pure output
    pure (if !output.isEmpty then String.intercalate "\n" output else "No results available")

/-- `DerivedComplexity`: the five-count dict built by
`analyze_sentence_complexity` (`visualize.py`, lines 146–152). -/
structure ComplexityAnalysis where
  total_sentences : Nat
  hard_sentences : Nat
  very_hard_sentences : Nat
  sentences_with_long_words : Nat
  sentences_with_complex_words : Nat
deriving DecidableEq, Repr

/-- `sum(1 for s in sentences if s.get(k, dflt))`. -/
def countTruthyField (sentences : List JValue) (k : String) (dflt : JValue) : Except PyErr Nat :=
  sentences.foldlM (fun acc s => do
    let v ← pyGet s k dflt
    pure (if truthy v then acc + 1 else acc)) 0

/-- `OriginalityVisualizer.analyze_sentence_complexity` (`visualize.py`,
lines 139–154).  The empty dict returned for a missing/falsy
`readability` section is embedded as `none`; the populated five-key
dict as `some`. -/
def analyze_sentence_complexity (d : Doc) : Except PyErr (Option ComplexityAnalysis) :=
  if !truthy (docGetD d "readability") then .ok none
  else do
    let sentencesV ← pyGet (docGetD d "readability") "sentences" (.arr [])
    let total ← pyLen sentencesV
    let sentences ← pyIterate sentencesV
    let hard ← countTruthyField sentences "isHard" (.bool false)
    let veryHard ← countTruthyField sentences "isVeryHard" (.bool false)
    let longW ← countTruthyField sentences "wordsOver13Chars" (.arr [])
    let complexW ← countTruthyField sentences "wordsOver4Syllables" (.arr [])
    pure (some ⟨total, hard, veryHard, longW, complexW⟩)

/-- `sum(1 for b in blocks if b['result'].get('fake', 0) > 0.75)`. -/
def highAIBlocks (blocks : List JValue) : Except PyErr Nat :=
  blocks.foldlM (fun acc b => do
    let r ← pySubscript b "result"
    let f ← pyGet r "fake" (.num 0)
    let hi ← pyGtNum f (0.75 : ℚ)
    pure (if hi then acc + 1 else acc)) 0

/-- The AI-section header string of `generate_detailed_insights`
(the source file stores the double-encoded emoji codepoints
U+00F0 U+0178 U+00A4 U+2013 verbatim). -/
def aiHeader : String := "ðŸ¤– AI Detection:"

/-- The readability-section header string (leading newline and the
double-encoded emoji codepoints as stored in the source). -/
def readabilityHeader : String := "\nðŸ“š Readability Analysis:"

/-- The plagiarism-section header string (leading newline and the
double-encoded emoji codepoints as stored in the source). -/
def plagiarismHeader : String := "\nðŸ” Plagiarism Check:"

/-- The `# AI Detection Insights` block of `generate_detailed_insights`
(`visualize.py`, lines 304–314), appending to the accumulated list. -/
def aiInsightBlock (d : Doc) (insights : List String) : Except PyErr (List String) :=
  if truthy (docGetD d "ai") then do
    let ai_conf ← pySubscript (docGetD d "ai") "confidence"
    let aiRaw ← pyGet ai_conf "AI" (.num 0)
    let ai_prob ← pyMulNat aiRaw 100
    let probStr ← pyFormat1f ai_prob
    let insights := insights ++ [aiHeader,
      "  - Overall AI Probability: " ++ probStr ++ "%"]
    let blocksV ← pyGet (docGetD d "ai") "blocks" (.arr [])
    if truthy blocksV then do
      let blocks ← pyIterate blocksV
      let high_ai_blocks ← highAIBlocks blocks
      pure (insights ++ ["  - " ++ toString high_ai_blocks ++
        " text blocks show strong AI characteristics"])
    else pure insights
  else pure insights

/-- The `# Readability Insights` block of `generate_detailed_insights`
(`visualize.py`, lines 316–332), appending to the accumulated list. -/
def readabilityInsightBlock (d : Doc) (insights : List String) : Except PyErr (List String) :=
  if truthy (docGetD d "readability") then do
    let metrics ← pySubscript (docGetD d "readability") "readability"
    let stats ← pySubscript (docGetD d "readability") "textStats"
    let f ← pyGet metrics "fleschReadingEase" (.num 0)
    let fs ← pyFormat1f f
    let t ← pyGet stats "averageReadingTime" (.num 0)
    let ts ← pyFormat1f t
    let insights := insights ++ [readabilityHeader,
      "  - Flesch Reading Ease: " ++ fs,
      "  - Average Reading Time: " ++ ts ++ " minutes"]
    let complexity ← analyze_sentence_complexity d
    match complexity with
    | none => pure insights
    | some c =>
        if 0 < c.total_sentences then
          pure (insights ++ ["  - " ++
            formatFixed 1 (((c.hard_sentences : ℚ) + c.very_hard_sentences) /
              c.total_sentences * 100) ++ "% of sentences are complex"])
        else pure insights
  else pure insights

/-- The `# Plagiarism Insights` block of `generate_detailed_insights`
(`visualize.py`, lines 334–341), appending to the accumulated list. -/
def plagiarismInsightBlock (d : Doc) (insights : List String) : Except PyErr (List String) :=
  if truthy (docGetD d "plagiarism") then do
    let plag_data := docGetD d "plagiarism"
    let score ← pyGet plag_data "score" (.num 0)
    let insights := insights ++ [plagiarismHeader,
      "  - Overall Score: " ++ pyStr score ++ "%"]
    let matchesV ← pyGetOpt plag_data "matches"
    if truthy matchesV then do
      let n ← pyLen matchesV
      pure (insights ++ ["  - Found " ++ toString n ++ " potential matches"])
    else pure insights
  else pure insights

/-- `OriginalityVisualizer.generate_detailed_insights` (`visualize.py`,
lines 300–343): the single `insights` list is threaded through the
three conditional section blocks in source order. -/
def generate_detailed_insights (d : Doc) : Except PyErr (List String) := do
  let insights : List String := []
  let insights ← aiInsightBlock d insights
  let insights ← readabilityInsightBlock d insights
  let insights ← plagiarismInsightBlock d insights
  pure insights

/-- The AI section of the insight sequence, built from an empty
accumulator. -/
def aiInsightSection (d : Doc) : Except PyErr (List String) :=
  aiInsightBlock d []

/-- The readability section of the insight sequence, built from an
empty accumulator. -/
def readabilityInsightSection (d : Doc) : Except PyErr (List String) :=
  readabilityInsightBlock d []

/-- The plagiarism section of the insight sequence, built from an empty
accumulator. -/
def plagiarismInsightSection (d : Doc) : Except PyErr (List String) :=
  plagiarismInsightBlock d []

/-- One row of the DataFrame built by `analyze_ai_blocks`, after the
projection `df[['text', 'ai_score', 'human_score']]`. -/
structure BlockRow where
  text : JValue
  ai_score : JValue
  human_score : JValue

/-- `OriginalityVisualizer.analyze_ai_blocks` (`visualize.py`, lines
156–165).  The pandas pipeline `pd.DataFrame(blocks)` / `.apply` /
column projection is modelled row by row for uniformly-shaped block
records (pandas' NaN padding of ragged records is not modelled; the
claims quantify over well-formed `TextBlock`s). -/
def analyze_ai_blocks (d : Doc) : Except PyErr (List BlockRow) :=
  if !truthy (docGetD d "ai") then .ok []
  else do
    let blocksOpt ← pyGetOpt (docGetD d "ai") "blocks"
    if !truthy blocksOpt then pure []
    else do
      let blocksV ← pySubscript (docGetD d "ai") "blocks"
      let blocks ← pyIterate blocksV
      blocks.mapM fun b => do
        let textV ← pySubscript b "text"
        let res ← pySubscript b "result"
        let fake ← pyGet res "fake" (.num 0)
        let ai_score ← pyMulNat fake 100
        let realV ← pyGet res "real" (.num 0)
        let human_score ← pyMulNat realV 100
        pure ⟨textV, ai_score, human_score⟩

/-- `OriginalityVisualizer.plot_plagiarism_metrics` (`visualize.py`,
lines 167–198), reduced to the `metrics` dict that the bar chart plots:
an insertion-ordered mapping (the synthetic labels `"Overall Score"`,
`"Match 1"`, `"Match 2"`, … are pairwise distinct, so the association
list matches Python dict semantics).  `None` (no plagiarism section) is
embedded as `none`. -/
def plot_plagiarism_metrics (d : Doc) : Except PyErr (Option (List (String × JValue))) :=
  if !truthy (docGetD d "plagiarism") then .ok none
  else do
    let plag_data := docGetD d "plagiarism"
    let score ← pyGet plag_data "score" (.num 0)
    let metrics : List (String × JValue) := [("Overall Score", score)]
    let matchesV ← pyGetOpt plag_data "matches"
    let metrics ←
      if truthy matchesV then do
        let ms ← pyIterate matchesV
        let res ← ms.foldlM (fun (acc : List (String × JValue) × Nat) m => do
          let s ← pyGet m "score" (.num 0)
          pure (acc.1 ++ [("Match " ++ toString acc.2, s)], acc.2 + 1)) (metrics, 1)
        pure res.1
      else pure metrics
    pure (some metrics)

/-- A well-formed `SentenceRecord` of the data model. -/
structure SentenceRecord where
  isHard : Bool
  isVeryHard : Bool
  wordsOver13Chars : List String
  wordsOver4Syllables : List String

/-- The JSON encoding of a well-formed sentence record. -/
def SentenceRecord.toJ (s : SentenceRecord) : JValue :=
  .obj [("isHard", .bool s.isHard), ("isVeryHard", .bool s.isVeryHard),
    ("wordsOver13Chars", .arr (s.wordsOver13Chars.map JValue.str)),
    ("wordsOver4Syllables", .arr (s.wordsOver4Syllables.map JValue.str))]

/-- `.astype(int)` on one cell of a pandas column: booleans map to 0/1,
floats truncate toward zero, other cell types fail. -/
def pyAsInt (v : JValue) : Except PyErr ℚ :=
  match v with
  | .bool b => .ok (if b then 1 else 0)
  | .num q => .ok ((ratTrunc q : ℤ) : ℚ)
  | _ => .error .typeError

/-- `.str.len()` on one cell of a pandas column: length of a list or
string cell. -/
def pyEltLen (v : JValue) : Except PyErr ℚ :=
  match v with
  | .arr xs => .ok (xs.length : ℚ)
  | .str s => .ok (s.length : ℚ)
  | _ => .error .typeError

/-- `values.rolling(window=w, min_periods=1).mean()`: at index `i` the
mean of the last `min (i+1) w` values, so position 0 is always defined
(never NaN). -/
def rollingMean (w : Nat) (xs : List ℚ) : List ℚ :=
  (List.range xs.length).map fun i =>
    let k := min (i + 1) w
    ((xs.take (i + 1)).drop (i + 1 - k)).sum / k

/-- `OriginalityVisualizer.plot_readability_timeline` (`visualize.py`,
lines 265–298), reduced to the three rolling-average series the figure
plots (Complexity, Long Words, Complex Words).  `None` (missing or
falsy `readability`/`sentences`) is embedded as `none`.  The pandas
column arithmetic is modelled cell by cell for uniformly-shaped
sentence records. -/
def plot_readability_timeline (d : Doc) : Except PyErr (Option (List ℚ × List ℚ × List ℚ)) :=
  if !truthy (docGetD d "readability") then .ok none
  else do
    let sv ← pyGetOpt (docGetD d "readability") "sentences"
    if !truthy sv then pure none
    else do
      let sentencesV ← pySubscript (docGetD d "readability") "sentences"
      let sentences ← pyIterate sentencesV
      let compVals ← sentences.mapM fun s => do
        let h ← pySubscript s "isHard"
        let hi ← pyAsInt h
        let v ← pySubscript s "isVeryHard"
        let vi ← pyAsInt v
        pure (hi + vi)
      let longVals ← sentences.mapM fun s => do
        let wv ← pySubscript s "wordsOver13Chars"
        pyEltLen wv
      let complexVals ← sentences.mapM fun s => do
        let wv ← pySubscript s "wordsOver4Syllables"
        pyEltLen wv
      let window_size := 5
      pure (some (rollingMean window_size compVals,
        rollingMean window_size longVals,
        rollingMean window_size complexVals))

/-- `{{ v.k }}` in the Jinja template: attribute-style item lookup on a
dict; a missing key (or non-dict value) renders as the empty string
(Jinja `Undefined`). -/
def jinjaStr (v : JValue) (k : String) : String :=
  match v with
  | .obj fs =>
      match fs.lookup k with
      | some x => pyStr x
      | none => ""
  | _ => ""
/-- A literal segment of the `export_to_html` Jinja template
(`visualize.py`, lines 347–459). -/
def tplHead : String :=
  "\n    <!DOCTYPE html>\n    <html>\n    <head>\n        <title>Originality.AI Analysis Report</title>\n        <script src=\"https://cdn.plot.ly/plotly-latest.min.js\"></script>\n        <style>\n            body \x7b \n                font-family: \x27Segoe UI\x27, Tahoma, Geneva, Verdana, sans-serif;\n                margin: 0;\n                padding: 20px;\n                background-color: #f5f5f5;\n            \x7d\n            .container \x7b \n                max-width: 1200px;\n                margin: auto;\n                background-color: white;\n                padding: 20px;\n                border-radius: 10px;\n                box-shadow: 0 2px 10px rgba(0,0,0,0.1);\n            \x7d\n            .section \x7b \n                margin: 30px 0;\n                padding: 20px;\n                border: 1px solid #eee;\n                border-radius: 8px;\n                background-color: white;\n            \x7d\n            .section h2 \x7b\n                color: #2c3e50;\n                border-bottom: 2px solid #3498db;\n                padding-bottom: 10px;\n            \x7d\n            .insights \x7b \n                background-color: #f8f9fa;\n                padding: 20px;\n                border-radius: 8px;\n                font-family: monospace;\n                white-space: pre-wrap;\n            \x7d\n            .metric \x7b \n                display: inline-block;\n                margin: 10px;\n                padding: 15px 25px;\n                background-color: #fff;\n                border-radius: 8px;\n                box-shadow: 0 2px 5px rgba(0,0,0,0.1);\n                transition: transform 0.2s;\n            \x7d\n            .metric:hover \x7b\n                transform: translateY(-2px);\n                box-shadow: 0 4px 8px rgba(0,0,0,0.15);\n            \x7d\n            .plot-container \x7b\n                margin: 20px 0;\n                padding: 10px;\n                background-color: white;\n                border-radius: 8px;\n                box-shadow: 0 2px 5px rgba(0,0,0,0.05);\n            \x7d\n        </style>\n    </head>\n    <body>\n        <div class=\"container\">\n            <h1 style=\"color: #2c3e50; text-align: center;\">Originality.AI Analysis Report</h1>\n            \n            <div class=\"section\">\n                <h2>Document Properties</h2>\n                "

/-- A literal segment of the `export_to_html` Jinja template
(`visualize.py`, lines 347–459). -/
def tplPropsA : String :=
  "\n                    <div class=\"metric\">Title: "

/-- A literal segment of the `export_to_html` Jinja template
(`visualize.py`, lines 347–459). -/
def tplPropsB : String :=
  "</div>\n                    <div class=\"metric\">ID: "

/-- A literal segment of the `export_to_html` Jinja template
(`visualize.py`, lines 347–459). -/
def tplPropsC : String :=
  "</div>\n                    <div class=\"metric\">Public Link: <a href=\""

/-- A literal segment of the `export_to_html` Jinja template
(`visualize.py`, lines 347–459). -/
def tplPropsD : String :=
  "\" target=\"_blank\">View</a></div>\n                "

/-- A literal segment of the `export_to_html` Jinja template
(`visualize.py`, lines 347–459). -/
def tplKeyInsights : String :=
  "\n            </div>\n            \n            <div class=\"section\">\n                <h2>Key Insights</h2>\n                <div class=\"insights\">\n                    "

/-- A literal segment of the `export_to_html` Jinja template
(`visualize.py`, lines 347–459). -/
def tplInsightPre : String :=
  "\n                        "

/-- A literal segment of the `export_to_html` Jinja template
(`visualize.py`, lines 347–459). -/
def tplInsightPost : String :=
  "\n                    "

/-- A literal segment of the `export_to_html` Jinja template
(`visualize.py`, lines 347–459). -/
def tplMidPlots : String :=
  "\n                </div>\n            </div>\n            \n            "

/-- A literal segment of the `export_to_html` Jinja template
(`visualize.py`, lines 347–459). -/
def tplPlotPre : String :=
  "\n                <div class=\"section\">\n                    <div class=\"plot-container\">\n                        "

/-- A literal segment of the `export_to_html` Jinja template
(`visualize.py`, lines 347–459). -/
def tplPlotPost : String :=
  "\n                    </div>\n                </div>\n            "

/-- A literal segment of the `export_to_html` Jinja template
(`visualize.py`, lines 347–459). -/
def tplCreditsHead : String :=
  "\n            \n            <div class=\"section\">\n                <h2>Credits Information</h2>\n                "

/-- A literal segment of the `export_to_html` Jinja template
(`visualize.py`, lines 347–459). -/
def tplCreditsA : String :=
  "\n                    <div class=\"metric\">Used Credits: "

/-- A literal segment of the `export_to_html` Jinja template
(`visualize.py`, lines 347–459). -/
def tplCreditsB : String :=
  "</div>\n                    <div class=\"metric\">Base Credits: "

/-- A literal segment of the `export_to_html` Jinja template
(`visualize.py`, lines 347–459). -/
def tplCreditsC : String :=
  "</div>\n                    <div class=\"metric\">Subscription Credits: "

/-- A literal segment of the `export_to_html` Jinja template
(`visualize.py`, lines 347–459). -/
def tplCreditsD : String :=
  "</div>\n                "

/-- A literal segment of the `export_to_html` Jinja template
(`visualize.py`, lines 347–459). -/
def tplTail : String :=
  "\n            </div>\n        </div>\n        <script>\n            // Add any interactive features here\n            document.addEventListener(\x27DOMContentLoaded\x27, function() \x7b\n                // Make plots responsive\n                window.onresize = function() \x7b\n                    Plotly.Plots.resize();\n                \x7d;\n            \x7d);\n        </script>\n    </body>\n    </html>\n    "

/-- `export_to_html` (`visualize.py`, lines 345–473): renders the Jinja
template with default settings (block tags removed, surrounding
template text kept verbatim, `Undefined` rendered empty).  Each figure
is an opaque pre-rendered HTML fragment (`fig.to_html(...)`); `none`
stands for a `None` figure, which the source filters out.  The
template never reads the document's `error` key: only
`data.get('properties', {})` and `data.get('credits', {})` are
consulted. -/
def export_to_html (figs : List (Option String)) (insights : List String) (data : Doc) :
    String :=
  let plot_htmls := figs.filterMap id
  let properties := docGetObjD data "properties"
  let credits := docGetObjD data "credits"
  tplHead
    ++ (if truthy properties then
          tplPropsA ++ jinjaStr properties "title"
            ++ tplPropsB ++ jinjaStr properties "id"
            ++ tplPropsC ++ jinjaStr properties "public_link" ++ tplPropsD
        else "")
    ++ tplKeyInsights
    ++ String.join (insights.map fun i => tplInsightPre ++ i ++ tplInsightPost)
    ++ tplMidPlots
    ++ String.join (plot_htmls.map fun p => tplPlotPre ++ p ++ tplPlotPost)
    ++ tplCreditsHead
    ++ (if truthy credits then
          tplCreditsA ++ jinjaStr credits "used"
            ++ tplCreditsB ++ jinjaStr credits "base_credits"
            ++ tplCreditsC ++ jinjaStr credits "subscription_credits" ++ tplCreditsD
        else "")
    ++ tplTail

/-- Last character of a string, if any. -/
def strLast (s : String) : Option Char :=
  s.data.getLast?

/-- The `% of sentences are complex` insight line for a given
percentage. -/
def percentLine (q : ℚ) : String :=
  "  - " ++ formatFixed 1 q ++ "% of sentences are complex"

/-- The `total_sentences` count derived from a document (0 when the
complexity analysis yields the no-data marker or fails). -/
def complexityTotal (d : Doc) : Nat :=
  match analyze_sentence_complexity d with
  | .ok (some c) => c.total_sentences
  | _ => 0

/-- The per-sentence complexity value of the timeline:
`isHard + isVeryHard` as 0/1/2. -/
def complexityVal (s : SentenceRecord) : ℚ :=
  (if s.isHard then 1 else 0) + (if s.isVeryHard then 1 else 0)

/-- A document whose readability section carries exactly the given
well-formed sentence records. -/
def mkReadTimelineDoc (recs : List SentenceRecord) : Doc :=
  [("readability", .obj [("sentences", .arr (recs.map SentenceRecord.toJ))])]

/-- A well-formed `TextBlock` of the data model. -/
structure TextBlock where
  text : String
  fake : ℚ
  real : ℚ

/-- The JSON encoding of a well-formed text block. -/
def TextBlock.toJ (b : TextBlock) : JValue :=
  .obj [("text", .str b.text),
    ("result", .obj [("fake", .num b.fake), ("real", .num b.real)])]

/-- The derived row `analyze_ai_blocks` produces for a well-formed
block: `ai_score = fake * 100`, `human_score = real * 100`. -/
def TextBlock.row (b : TextBlock) : BlockRow :=
  ⟨.str b.text, .num (b.fake * 100), .num (b.real * 100)⟩

/-- A document whose `ai` section carries exactly the given well-formed
text blocks. -/
def mkAIDoc (bs : List TextBlock) : Doc :=
  [("ai", .obj [("blocks", .arr (bs.map TextBlock.toJ))])]

/-- A well-formed plagiarism `Match` of the data model. -/
structure PlagMatch where
  url : String
  score : ℚ

/-- The JSON encoding of a well-formed match. -/
def PlagMatch.toJ (m : PlagMatch) : JValue :=
  .obj [("url", .str m.url), ("score", .num m.score)]

/-- The `"Match {i}"` entries of the plagiarism metric mapping,
1-based, in match order. -/
def matchEntriesFrom (i : Nat) : List PlagMatch → List (String × JValue)
  | [] => []
  | m :: ms => ("Match " ++ toString i, .num m.score) :: matchEntriesFrom (i + 1) ms

/-- Whether a value is a dict. -/
def isObjB : JValue → Bool
  | .obj _ => true
  | _ => false

theorem lookup_filter_ne (l : List (String × JValue)) (k e : String) (h : k ≠ e) :
    (l.filter fun p => !(p.1 == e)).lookup k = l.lookup k := by
  induction l with
  | nil => rfl
  | cons hd tl ih =>
    rcases hd with ⟨k1, v1⟩
    by_cases he : k1 = e
    · subst he
      have hk : (k == k1) = false := by simp [h]
      simp [List.filter, List.lookup, hk, ih]
    · have : ((k1, v1).1 == e) = false := by simp [he]
      simp only [List.filter, this, Bool.not_false, List.lookup, ih]

theorem strData_append (a b : String) : (a ++ b).data = a.data ++ b.data := by
  cases a
  cases b
  rfl

theorem strLast_append (a b : String) (h : b.data ≠ []) :
    strLast (a ++ b) = strLast b := by
  unfold strLast
  rw [strData_append]
  exact List.getLast?_append_of_ne_nil _ h

theorem digitChar_ne_x (k : Nat) : Nat.digitChar k ≠ 'x' := by
  by_cases h : k < 16
  · interval_cases k <;> decide
  · have hb : Nat.digitChar k = '*' := by
      simp only [Nat.digitChar]
      iterate 16 rw [if_neg (by omega)]
    rw [hb]
    decide

set_option maxRecDepth 200000 in
set_option maxHeartbeats 2000000 in
/-- C1: for every AnalysisDocument containing a top-level `error` key,
the claim demands that both the plain-text and the HTML rendering
contain only the error message with all other sections suppressed.
The HTML half is false: `export_to_html` never reads the `error` key.
For the document `{"error": "rate limited", "credits": {...}}` the
derived insights are empty and every figure is `None`, yet the rendered
HTML does not contain "rate limited" at all and does render the credits
section. -/
theorem claim_C1_counterexample :
    generate_detailed_insights [("error", .str "rate limited"),
        ("credits", .obj [("used", .num 1), ("base_credits", .num 2),
          ("subscription_credits", .num 3)])] = .ok [] ∧
    plot_plagiarism_metrics [("error", .str "rate limited"),
        ("credits", .obj [("used", .num 1), ("base_credits", .num 2),
          ("subscription_credits", .num 3)])] = .ok none ∧
    plot_readability_timeline [("error", .str "rate limited"),
        ("credits", .obj [("used", .num 1), ("base_credits", .num 2),
          ("subscription_credits", .num 3)])] = .ok none ∧
    strContainsSub (export_to_html [] [] [("error", .str "rate limited"),
        ("credits", .obj [("used", .num 1), ("base_credits", .num 2),
          ("subscription_credits", .num 3)])]) "rate limited" = false ∧
    strContainsSub (export_to_html [] [] [("error", .str "rate limited"),
        ("credits", .obj [("used", .num 1), ("base_credits", .num 2),
          ("subscription_credits", .num 3)])]) "Used Credits: 1" = true := by
  refine ⟨rfl, rfl, rfl, ?_, ?_⟩ <;> decide

/-- C1 (amended): the plain-text rendering of every document with a
top-level `error` key is exactly `"Error: {message}"`, every other
section suppressed; the HTML rendering, however, ignores the `error`
key entirely (its output is invariant under deleting that key) and
renders the supplied properties/insights/figures/credits normally. -/
theorem claim_C1 :
    (∀ result : Doc, docHasKey result "error" = true →
      format_results result = .ok ("Error: " ++ pyStr (docGetD result "error"))) ∧
    (∀ (figs : List (Option String)) (insights : List String) (data : Doc),
      export_to_html figs insights data =
        export_to_html figs insights (data.filter fun p => !(p.1 == "error"))) := by
  constructor
  · intro result h
    simp [format_results, h]
  · intro figs insights data
    unfold export_to_html docGetObjD
    rw [lookup_filter_ne data "properties" "error" (by decide),
      lookup_filter_ne data "credits" "error" (by decide)]

/-- C1 witness: the scenario document `{"error": "rate limited"}`
renders as exactly `"Error: rate limited"`. -/
theorem claim_C1_witness :
    format_results [("error", .str "rate limited")] = .ok "Error: rate limited" := by
  have h := claim_C1.1 [("error", .str "rate limited")] rfl
  exact h

/-- C2: the claim (and the spec's propagation policy) demands that the
formatting and insight functions never raise for missing inner fields.
The code violates it: with `ai.confidence` present but `confidence.AI`
missing, `format_results` formats the string default `'N/A'` with
`:.2%` and raises `ValueError`; with `readability` present but the
inner `readability` key missing, `generate_detailed_insights`
subscripts it and raises `KeyError`. -/
theorem claim_C2_code_bug :
    format_results [("ai", .obj [("confidence", .obj [])])] = .error .valueError ∧
    generate_detailed_insights [("readability", .obj [("sentences", .arr [])])] =
      .error (.keyError "readability") := by
  exact ⟨rfl, rfl⟩

/-- C3: for the document `{"ai": {"confidence": {"AI": 0.82,
"Original": 0.18}}}` the insight sequence is the AI header plus the
line reporting 82.0% (confidence.AI × 100 to one decimal), no
block-count line is emitted (blocks default to the empty, falsy list),
and the high-AI count over the absent blocks — the number of blocks
with `fake > 0.75` — is 0. -/
theorem claim_C3 :
    generate_detailed_insights [("ai", .obj [("confidence",
        .obj [("AI", .num (0.82 : ℚ)), ("Original", .num (0.18 : ℚ))])])] =
      .ok [aiHeader, "  - Overall AI Probability: 82.0%"] ∧
    highAIBlocks [] = .ok 0 := by
  exact ⟨by with_unfolding_all rfl, rfl⟩

/-- C9: a document with no `error` key and with each of the five
rendered sections absent or falsy formats as exactly
`"No results available"`. -/
theorem claim_C9 (result : Doc)
    (herr : docHasKey result "error" = false)
    (hai : sectionTruthy result "ai" = false)
    (hplag : sectionTruthy result "plagiarism" = false)
    (hread : sectionTruthy result "readability" = false)
    (hgram : sectionTruthy result "grammarSpelling" = false)
    (hcred : sectionTruthy result "credits" = false) :
    format_results result = .ok "No results available" := by
  simp [format_results, herr, hai, hplag, hread, hgram, hcred]
  rfl

/-- C9 witness: the empty document formats as
`"No results available"`. -/
theorem claim_C9_witness :
    format_results [] = .ok "No results available" :=
  claim_C9 [] rfl rfl rfl rfl rfl rfl

theorem countTruthyField_foldlM_ok (k : String) (dflt : JValue) :
    ∀ (ss : List JValue), (∀ s ∈ ss, isObjB s = true) →
    ∀ acc : Nat, ∃ n, ss.foldlM (fun acc s => do
      let v ← pyGet s k dflt
      pure (if truthy v then acc + 1 else acc)) acc = .ok n := by
  intro ss
  induction ss with
  | nil => exact fun _ acc => ⟨acc, rfl⟩
  | cons s t ih =>
    intro h acc
    have hs := h s (by simp)
    have hobj : ∃ fs, s = JValue.obj fs := by
      cases s <;> simp [isObjB] at hs ⊢
    obtain ⟨fs, rfl⟩ := hobj
    have ht : ∀ x ∈ t, isObjB x = true := fun x hx => h x (by simp [hx])
    obtain ⟨n, hn⟩ := ih ht (if truthy ((fs.lookup k).getD dflt) then acc + 1 else acc)
    refine ⟨n, ?_⟩
    simpa [List.foldlM, pyGet, bind, Except.bind] using hn

theorem countTruthyField_ok (ss : List JValue) (k : String) (dflt : JValue)
    (h : ∀ s ∈ ss, isObjB s = true) :
    ∃ n, countTruthyField ss k dflt = .ok n :=
  countTruthyField_foldlM_ok k dflt ss h 0

theorem truthy_obj_of_ne_nil (fs : List (String × JValue)) (hne : fs ≠ []) :
    truthy (.obj fs) = true := by
  cases fs with
  | nil => exact absurd rfl hne
  | cons a t => rfl

/-- C10 fails on the code as stated: for a present-and-truthy but
wrong-typed readability section (here the number 1),
`analyze_sentence_complexity` does not return the five-field mapping —
it raises `AttributeError` calling `.get` on a non-dict. -/
theorem claim_C10_counterexample :
    truthy (docGetD [("readability", JValue.num 1)] "readability") = true ∧
    analyze_sentence_complexity [("readability", JValue.num 1)] =
      .error .attributeError :=
  ⟨by decide, rfl⟩

/-- C10 (amended): `analyze_sentence_complexity` returns the empty
no-data marker exactly when the readability section is absent or falsy;
whenever the readability section is a present, truthy *mapping*, whose
`sentences` field — if present — is a sequence of mappings, it returns
the five-count record, with every count 0 when `sentences` is missing
or empty (a wrong-typed section or sentence entry raises instead). -/
theorem claim_C10 :
    (∀ d : Doc, truthy (docGetD d "readability") = false →
      analyze_sentence_complexity d = .ok none) ∧
    (∀ (d : Doc) (c : ComplexityAnalysis),
      analyze_sentence_complexity d = .ok (some c) →
      truthy (docGetD d "readability") = true) ∧
    (∀ (d : Doc) (fs : List (String × JValue)),
      docGetD d "readability" = .obj fs → fs ≠ [] →
      (fs.lookup "sentences" = none ∨ fs.lookup "sentences" = some (.arr [])) →
      analyze_sentence_complexity d = .ok (some ⟨0, 0, 0, 0, 0⟩)) ∧
    (∀ (d : Doc) (fs : List (String × JValue)) (ss : List JValue),
      docGetD d "readability" = .obj fs → fs ≠ [] →
      fs.lookup "sentences" = some (.arr ss) →
      (∀ s ∈ ss, isObjB s = true) →
      ∃ c : ComplexityAnalysis, analyze_sentence_complexity d = .ok (some c) ∧
        c.total_sentences = ss.length) := by
  refine ⟨?_, ?_, ?_, ?_⟩
  · intro d h
    simp [analyze_sentence_complexity, h]
  · intro d c h
    by_cases ht : truthy (docGetD d "readability")
    · exact ht
    · rw [analyze_sentence_complexity] at h
      simp [eq_false_of_ne_true ht] at h
  · intro d fs hsec hne hs
    have ht := truthy_obj_of_ne_nil fs hne
    rw [analyze_sentence_complexity, hsec]
    rcases hs with hs | hs <;>
      simp [ht, pyGet, hs, pyLen, pyIterate, countTruthyField,
        List.foldlM, bind, Except.bind, pure, Except.pure]
  · intro d fs ss hsec hne hs hobj
    have ht := truthy_obj_of_ne_nil fs hne
    obtain ⟨n1, h1⟩ := countTruthyField_ok ss "isHard" (.bool false) hobj
    obtain ⟨n2, h2⟩ := countTruthyField_ok ss "isVeryHard" (.bool false) hobj
    obtain ⟨n3, h3⟩ := countTruthyField_ok ss "wordsOver13Chars" (.arr []) hobj
    obtain ⟨n4, h4⟩ := countTruthyField_ok ss "wordsOver4Syllables" (.arr []) hobj
    refine ⟨⟨ss.length, n1, n2, n3, n4⟩, ?_, rfl⟩
    rw [analyze_sentence_complexity, hsec]
    simp only [ht, Bool.not_true, Bool.false_eq_true, if_false, pyGet, hs,
      Option.getD_some, pyLen, pyIterate, bind, Except.bind, h1, h2, h3, h4]
    rfl

/-- C10 witness: a truthy readability mapping with no `sentences` field
yields the all-zero five-count record, not the no-data marker. -/
theorem claim_C10_witness :
    analyze_sentence_complexity [("readability", .obj [("textStats", .obj [])])] =
      .ok (some ⟨0, 0, 0, 0, 0⟩) :=
  claim_C10.2.2.1 [("readability", .obj [("textStats", .obj [])])]
    [("textStats", .obj [])] rfl (List.cons_ne_nil _ _) (Or.inl rfl)


theorem matchEntriesFrom_length (ms : List PlagMatch) :
    ∀ i : Nat, (matchEntriesFrom i ms).length = ms.length := by
  induction ms with
  | nil => intro i; rfl
  | cons m t ih => intro i; simp [matchEntriesFrom, ih]

theorem ebind_ok {ε α β : Type} (a : α) (f : α → Except ε β) :
    (Except.ok a >>= f) = f a := rfl

theorem epure_eq {ε α : Type} (a : α) : (pure a : Except ε α) = Except.ok a := rfl

theorem matchEntries_foldlM (ms : List PlagMatch) :
    ∀ (acc : List (String × JValue)) (i : Nat),
    (ms.map PlagMatch.toJ).foldlM (fun (acc : List (String × JValue) × Nat) m => do
      let s ← pyGet m "score" (.num 0)
      pure (acc.1 ++ [("Match " ++ toString acc.2, s)], acc.2 + 1)) (acc, i) =
    .ok (acc ++ matchEntriesFrom i ms, i + ms.length) := by
  induction ms with
  | nil =>
    intro acc i
    simp [List.foldlM, matchEntriesFrom]
    rfl
  | cons m t ih =>
    intro acc i
    have step : pyGet (PlagMatch.toJ m) "score" (.num 0) = .ok (.num m.score) := by
      simp [PlagMatch.toJ, pyGet, List.lookup]
    simp only [epure_eq] at ih ⊢
    simp only [List.map_cons, List.foldlM_cons, step, ebind_ok]
    rw [ih]
    simp only [matchEntriesFrom, Except.ok.injEq, Prod.mk.injEq]
    exact ⟨by simp, by simp [List.length_cons]; omega⟩

/-- C7 fails on the code as stated: the claim covers every document
whose plagiarism section is present, but for a present-and-falsy
section (the empty mapping) `plot_plagiarism_metrics` returns `None` —
no metric mapping at all, instead of the claimed one-entry
`{"Overall Score": 0}`. -/
theorem claim_C7_counterexample :
    docHasKey [("plagiarism", JValue.obj [])] "plagiarism" = true ∧
    plot_plagiarism_metrics [("plagiarism", JValue.obj [])] = .ok none :=
  ⟨rfl, rfl⟩

/-- C7 (amended): for every document whose plagiarism section is
present and *truthy* (a nonempty mapping, with `matches` — when truthy
— a sequence of well-formed matches), the derived metric mapping has
exactly `1 + len(matches)` entries: first `"Overall Score"` with the
document's plagiarism score (default 0), then `"Match 1"`,
`"Match 2"`, … (1-based) with each match's score in match order. -/
theorem claim_C7 (d : Doc) (fs : List (String × JValue))
    (hsec : docGetD d "plagiarism" = .obj fs) (hne : fs ≠ []) :
    (truthy ((fs.lookup "matches").getD .null) = false →
      plot_plagiarism_metrics d =
        .ok (some [("Overall Score", (fs.lookup "score").getD (.num 0))])) ∧
    (∀ ms : List PlagMatch, ms ≠ [] →
      fs.lookup "matches" = some (.arr (ms.map PlagMatch.toJ)) →
      plot_plagiarism_metrics d =
        .ok (some (("Overall Score", (fs.lookup "score").getD (.num 0)) ::
          matchEntriesFrom 1 ms))) ∧
    (∀ (i : Nat) (ms : List PlagMatch), (matchEntriesFrom i ms).length = ms.length) := by
  have ht := truthy_obj_of_ne_nil fs hne
  have hscore : pyGet (JValue.obj fs) "score" (JValue.num 0) =
      .ok ((fs.lookup "score").getD (.num 0)) := rfl
  have hmopt : pyGetOpt (JValue.obj fs) "matches" =
      .ok ((fs.lookup "matches").getD .null) := rfl
  refine ⟨?_, ?_, fun i ms => matchEntriesFrom_length ms i⟩
  · intro hm
    rw [plot_plagiarism_metrics, hsec]
    simp only [ht, Bool.not_true, Bool.false_eq_true, if_false, hscore, hmopt,
      ebind_ok, hm]
    rfl
  · intro ms hms hlook
    rw [plot_plagiarism_metrics, hsec]
    have htm : truthy (JValue.arr (ms.map PlagMatch.toJ)) = true := by
      cases ms with
      | nil => exact absurd rfl hms
      | cons a t => rfl
    have hiter : pyIterate (JValue.arr (ms.map PlagMatch.toJ)) =
        .ok (ms.map PlagMatch.toJ) := rfl
    simp only [ht, Bool.not_true, Bool.false_eq_true, if_false, hscore, hmopt,
      ebind_ok, hlook, Option.getD_some, htm, if_true, hiter]
    rw [matchEntries_foldlM]
    rfl

/-- C7 witness: the scenario document with score 25 and two matches
scoring 40 and 10 yields the ordered three-entry mapping
`{"Overall Score": 25, "Match 1": 40, "Match 2": 10}`. -/
theorem claim_C7_witness :
    plot_plagiarism_metrics [("plagiarism", JValue.obj [("score", JValue.num 25),
        ("matches", JValue.arr [PlagMatch.toJ ⟨"u1", 40⟩, PlagMatch.toJ ⟨"u2", 10⟩])])] =
      .ok (some [("Overall Score", JValue.num 25), ("Match 1", JValue.num 40),
        ("Match 2", JValue.num 10)]) := by
  have h := (claim_C7
    [("plagiarism", JValue.obj [("score", JValue.num 25),
      ("matches", JValue.arr [PlagMatch.toJ ⟨"u1", 40⟩, PlagMatch.toJ ⟨"u2", 10⟩])])]
    [("score", JValue.num 25),
      ("matches", JValue.arr [PlagMatch.toJ ⟨"u1", 40⟩, PlagMatch.toJ ⟨"u2", 10⟩])]
    rfl (List.cons_ne_nil _ _)).2.1
    [⟨"u1", 40⟩, ⟨"u2", 10⟩] (List.cons_ne_nil _ _) rfl
  exact h.trans (by rfl)


theorem analyze_ai_blocks_rowFun (bs : List TextBlock) :
    (bs.map TextBlock.toJ).mapM (fun b => do
      let textV ← pySubscript b "text"
      let res ← pySubscript b "result"
      let fake ← pyGet res "fake" (.num 0)
      let ai_score ← pyMulNat fake 100
      let realV ← pyGet res "real" (.num 0)
      let human_score ← pyMulNat realV 100
      pure (⟨textV, ai_score, human_score⟩ : BlockRow)) = .ok (bs.map TextBlock.row) := by
  induction bs with
  | nil => rfl
  | cons b t ih =>
    have h1 : pySubscript (TextBlock.toJ b) "text" = .ok (.str b.text) := by
      simp [TextBlock.toJ, pySubscript, List.lookup]
    have h2 : pySubscript (TextBlock.toJ b) "result" =
        .ok (.obj [("fake", .num b.fake), ("real", .num b.real)]) := by
      simp [TextBlock.toJ, pySubscript, List.lookup]
    have h3 : pyGet (JValue.obj [("fake", .num b.fake), ("real", .num b.real)])
        "fake" (.num 0) = .ok (.num b.fake) := by
      simp [pyGet, List.lookup]
    have h4 : pyGet (JValue.obj [("fake", .num b.fake), ("real", .num b.real)])
        "real" (.num 0) = .ok (.num b.real) := by
      simp [pyGet, List.lookup]
    have h5 : pyMulNat (.num b.fake) 100 = .ok (.num (b.fake * 100)) := by
      simp [pyMulNat, Nat.cast_ofNat]
    have h6 : pyMulNat (.num b.real) 100 = .ok (.num (b.real * 100)) := by
      simp [pyMulNat, Nat.cast_ofNat]
    simp only [epure_eq] at ih ⊢
    simp only [List.map_cons, List.mapM_cons, h1, h2, h3, h4, h5, h6,
      ebind_ok, ih]
    rfl

/-- C6: for every list of well-formed TextBlocks, `analyze_ai_blocks`
produces exactly one derived row per block, in block order, with
`ai_score = result.fake * 100` and `human_score = result.real * 100`
exactly; hence for `fake`/`real` in [0,1] both derived scores lie in
[0,100], and the scaling is linear (`fake = 0.5` gives
`ai_score = 50`). -/
theorem claim_C6 (bs : List TextBlock) :
    analyze_ai_blocks (mkAIDoc bs) = .ok (bs.map TextBlock.row) ∧
    (∀ b : TextBlock, (TextBlock.row b).ai_score = .num (b.fake * 100) ∧
      (TextBlock.row b).human_score = .num (b.real * 100)) ∧
    (∀ b : TextBlock, 0 ≤ b.fake → b.fake ≤ 1 →
      0 ≤ b.fake * 100 ∧ b.fake * 100 ≤ 100) ∧
    (∀ b : TextBlock, 0 ≤ b.real → b.real ≤ 1 →
      0 ≤ b.real * 100 ∧ b.real * 100 ≤ 100) ∧
    (∀ b : TextBlock, b.fake = 1 / 2 → (TextBlock.row b).ai_score = .num 50) ∧
    (bs.map TextBlock.row).length = bs.length := by
  refine ⟨?_, fun b => ⟨rfl, rfl⟩, ?_, ?_, ?_, List.length_map _ _⟩
  · by_cases hbs : bs = []
    · subst hbs; rfl
    · have ht1 : truthy (docGetD (mkAIDoc bs) "ai") = true := rfl
      have hg : docGetD (mkAIDoc bs) "ai" =
          .obj [("blocks", .arr (bs.map TextBlock.toJ))] := rfl
      have hgo : pyGetOpt (JValue.obj [("blocks", .arr (bs.map TextBlock.toJ))])
          "blocks" = .ok (.arr (bs.map TextBlock.toJ)) := rfl
      have hsub : pySubscript (JValue.obj [("blocks", .arr (bs.map TextBlock.toJ))])
          "blocks" = .ok (.arr (bs.map TextBlock.toJ)) := rfl
      have hit : pyIterate (.arr (bs.map TextBlock.toJ)) =
          .ok (bs.map TextBlock.toJ) := rfl
      have htr : truthy (JValue.arr (bs.map TextBlock.toJ)) = true := by
        cases bs with
        | nil => exact absurd rfl hbs
        | cons a t => rfl
      have ht2 : truthy (JValue.obj
          [("blocks", JValue.arr (List.map TextBlock.toJ bs))]) = true := rfl
      rw [analyze_ai_blocks, hg]
      simp only [ht1, ht2, hg, Bool.not_true, Bool.false_eq_true, if_false, hgo,
        ebind_ok, htr, hsub, hit, analyze_ai_blocks_rowFun]
  · intro b h0 h1
    exact ⟨mul_nonneg h0 (by norm_num), by nlinarith⟩
  · intro b h0 h1
    exact ⟨mul_nonneg h0 (by norm_num), by nlinarith⟩
  · intro b h
    simp only [TextBlock.row, h, JValue.num.injEq]
    norm_num

/-- C6 witness: a single block with `fake = real = 0.5` yields exactly
one row with both scores 50. -/
theorem claim_C6_witness :
    analyze_ai_blocks (mkAIDoc [⟨"t", 1 / 2, 1 / 2⟩]) =
      .ok [⟨.str "t", .num 50, .num 50⟩] ∧
    (TextBlock.row ⟨"t", 1 / 2, 1 / 2⟩).ai_score = .num 50 := by
  constructor
  · exact (claim_C6 [⟨"t", 1 / 2, 1 / 2⟩]).1.trans (by with_unfolding_all rfl)
  · exact (claim_C6 [⟨"t", 1 / 2, 1 / 2⟩]).2.2.2.2.1 ⟨"t", 1 / 2, 1 / 2⟩ rfl

theorem timeline_comp_mapM (recs : List SentenceRecord) :
    (recs.map SentenceRecord.toJ).mapM (fun s => do
      let h ← pySubscript s "isHard"
      let hi ← pyAsInt h
      let v ← pySubscript s "isVeryHard"
      let vi ← pyAsInt v
      pure (hi + vi)) = .ok (recs.map complexityVal) := by
  induction recs with
  | nil => rfl
  | cons r t ih =>
    have hh : pySubscript (SentenceRecord.toJ r) "isHard" = .ok (.bool r.isHard) := by
      simp [SentenceRecord.toJ, pySubscript, List.lookup]
    have hv : pySubscript (SentenceRecord.toJ r) "isVeryHard" =
        .ok (.bool r.isVeryHard) := by
      simp [SentenceRecord.toJ, pySubscript, List.lookup]
    have ha : pyAsInt (.bool r.isHard) = .ok (if r.isHard then 1 else 0) := rfl
    have hb : pyAsInt (.bool r.isVeryHard) = .ok (if r.isVeryHard then 1 else 0) := rfl
    simp only [epure_eq] at ih ⊢
    simp only [List.map_cons, List.mapM_cons, hh, ha, hv, hb, ebind_ok, ih]
    rfl

theorem timeline_len_mapM (key : String) (proj : SentenceRecord → List String)
    (hproj : ∀ r : SentenceRecord,
      pySubscript (SentenceRecord.toJ r) key = .ok (.arr ((proj r).map JValue.str))) :
    ∀ recs : List SentenceRecord,
    (recs.map SentenceRecord.toJ).mapM (fun s => do
      let wv ← pySubscript s key
      pyEltLen wv) = .ok (recs.map fun s => ((proj s).length : ℚ)) := by
  intro recs
  induction recs with
  | nil => rfl
  | cons r t ih =>
    have hl : pyEltLen (.arr ((proj r).map JValue.str)) = .ok ((proj r).length : ℚ) := by
      simp [pyEltLen, List.length_map]
    simp only [List.map_cons, List.mapM_cons, hproj r, hl, ebind_ok, epure_eq, ih]

theorem rollingMean_length (w : Nat) (xs : List ℚ) :
    (rollingMean w xs).length = xs.length := by
  simp [rollingMean]

theorem rollingMean_head (w : Nat) (hw : 0 < w) (x : ℚ) (xs : List ℚ) :
    (rollingMean w (x :: xs)).head? = some x := by
  have h1 : min (0 + 1) w = 1 := by omega
  simp [rollingMean, List.range_succ_eq_map, h1]
  have h2 : (1 : ℚ) ⊓ (w : ℚ) = 1 := min_eq_left (by exact_mod_cast hw)
  rw [h2, div_one]

theorem rollingMean_getElem (w : Nat) (xs : List ℚ) (i : Nat) (hi : i < xs.length) :
    (rollingMean w xs)[i]? =
      some (((xs.take (i + 1)).drop (i + 1 - min (i + 1) w)).sum / (min (i + 1) w)) := by
  simp [rollingMean, List.getElem?_map, List.getElem?_range, hi]

/-- C5: for every list of well-formed sentence records, the timeline
consists of the three rolling-average series — complexity
(`isHard + isVeryHard` as 0/1/2), long-word count, complex-word count —
each the moving average with window 5 and `min_periods = 1`; every
series has length equal to the sentence count, position 0 is always the
plain first value (never undefined), each position `i` averages the
last `min (i+1) w` values, and 0 sentences produce the empty output
(`None`, no chart and no error). -/
theorem claim_C5 (recs : List SentenceRecord) :
    (recs = [] → plot_readability_timeline (mkReadTimelineDoc recs) = .ok none) ∧
    (recs ≠ [] → plot_readability_timeline (mkReadTimelineDoc recs) =
      .ok (some (rollingMean 5 (recs.map complexityVal),
        rollingMean 5 (recs.map fun s => (s.wordsOver13Chars.length : ℚ)),
        rollingMean 5 (recs.map fun s => (s.wordsOver4Syllables.length : ℚ))))) ∧
    (∀ (w : Nat) (xs : List ℚ), (rollingMean w xs).length = xs.length) ∧
    (∀ w : Nat, 0 < w → ∀ (x : ℚ) (xs : List ℚ),
      (rollingMean w (x :: xs)).head? = some x) ∧
    (∀ (w : Nat) (xs : List ℚ) (i : Nat), i < xs.length →
      (rollingMean w xs)[i]? =
        some (((xs.take (i + 1)).drop (i + 1 - min (i + 1) w)).sum /
          (min (i + 1) w))) := by
  refine ⟨?_, ?_, rollingMean_length, rollingMean_head, rollingMean_getElem⟩
  · intro h
    subst h
    rfl
  · intro hne
    have hw13 : ∀ r : SentenceRecord, pySubscript (SentenceRecord.toJ r)
        "wordsOver13Chars" = .ok (.arr (r.wordsOver13Chars.map JValue.str)) := by
      intro r
      simp [SentenceRecord.toJ, pySubscript, List.lookup]
    have hw4 : ∀ r : SentenceRecord, pySubscript (SentenceRecord.toJ r)
        "wordsOver4Syllables" = .ok (.arr (r.wordsOver4Syllables.map JValue.str)) := by
      intro r
      simp [SentenceRecord.toJ, pySubscript, List.lookup]
    have ht1 : truthy (docGetD (mkReadTimelineDoc recs) "readability") = true := rfl
    have hg : docGetD (mkReadTimelineDoc recs) "readability" =
        .obj [("sentences", .arr (recs.map SentenceRecord.toJ))] := rfl
    have hgo : pyGetOpt (JValue.obj
        [("sentences", .arr (recs.map SentenceRecord.toJ))]) "sentences" =
        .ok (.arr (recs.map SentenceRecord.toJ)) := rfl
    have hsub : pySubscript (JValue.obj
        [("sentences", .arr (recs.map SentenceRecord.toJ))]) "sentences" =
        .ok (.arr (recs.map SentenceRecord.toJ)) := rfl
    have hit : pyIterate (.arr (recs.map SentenceRecord.toJ)) =
        .ok (recs.map SentenceRecord.toJ) := rfl
    have htr : truthy (JValue.arr (recs.map SentenceRecord.toJ)) = true := by
      cases recs with
      | nil => exact absurd rfl hne
      | cons a t => rfl
    rw [plot_readability_timeline, hg]
    simp only [ht1, hg, Bool.not_true, Bool.false_eq_true, if_false, hgo,
      ebind_ok, htr, hsub, hit, timeline_comp_mapM,
      timeline_len_mapM "wordsOver13Chars" (fun s => s.wordsOver13Chars) hw13,
      timeline_len_mapM "wordsOver4Syllables" (fun s => s.wordsOver4Syllables) hw4]
    rfl

/-- C5 witness: three records (hard; plain; hard-and-very-hard with two
complex words) produce the three rolling series, each of length 3 and
with position 0 equal to the first raw value. -/
theorem claim_C5_witness :
    plot_readability_timeline (mkReadTimelineDoc
      [⟨true, false, ["x"], []⟩, ⟨false, false, [], []⟩, ⟨true, true, [], ["a", "b"]⟩]) =
      .ok (some ([1, 1 / 2, 1], [1, 1 / 2, 1 / 3], [0, 0, 2 / 3])) ∧
    (rollingMean 5 [1, 0, 2]).length = 3 := by
  constructor
  · exact ((claim_C5 [⟨true, false, ["x"], []⟩, ⟨false, false, [], []⟩,
      ⟨true, true, [], ["a", "b"]⟩]).2.1 (List.cons_ne_nil _ _)).trans
      (by with_unfolding_all rfl)
  · exact ((claim_C5 []).2.2.1 5 [1, 0, 2]).trans rfl

theorem ebind_err {ε α β : Type} (e : ε) (f : α → Except ε β) :
    (Except.error e >>= f) = .error e := rfl

theorem aiInsightBlock_acc (d : Doc) (acc : List String) :
    aiInsightBlock d acc = (aiInsightBlock d []).bind (fun r => .ok (acc ++ r)) := by
  unfold aiInsightBlock
  by_cases hg : truthy (docGetD d "ai") = true
  · simp only [hg, if_true]
    cases h1 : pySubscript (docGetD d "ai") "confidence" with
    | error e => rfl
    | ok ai_conf =>
      simp only [ebind_ok]
      cases h2 : pyGet ai_conf "AI" (.num 0) with
      | error e => rfl
      | ok aiRaw =>
        simp only [ebind_ok]
        cases h3 : pyMulNat aiRaw 100 with
        | error e => rfl
        | ok ai_prob =>
          simp only [ebind_ok]
          cases h4 : pyFormat1f ai_prob with
          | error e => rfl
          | ok probStr =>
            simp only [ebind_ok]
            cases h5 : pyGet (docGetD d "ai") "blocks" (.arr []) with
            | error e => rfl
            | ok blocksV =>
              simp only [ebind_ok]
              by_cases h6 : truthy blocksV = true
              · simp only [h6, if_true]
                cases h7 : pyIterate blocksV with
                | error e => rfl
                | ok blocks =>
                  simp only [ebind_ok]
                  cases h8 : highAIBlocks blocks with
                  | error e => rfl
                  | ok high =>
                    simp only [ebind_ok, epure_eq, Except.bind]
                    simp
              · simp only [h6, Bool.false_eq_true, if_false, epure_eq, Except.bind]
                simp
  · simp only [eq_false_of_ne_true hg, Bool.false_eq_true, if_false, epure_eq,
      Except.bind]
    simp

theorem readabilityInsightBlock_acc (d : Doc) (acc : List String) :
    readabilityInsightBlock d acc =
      (readabilityInsightBlock d []).bind (fun r => .ok (acc ++ r)) := by
  unfold readabilityInsightBlock
  by_cases hg : truthy (docGetD d "readability") = true
  · simp only [hg, if_true]
    cases h1 : pySubscript (docGetD d "readability") "readability" with
    | error e => rfl
    | ok metrics =>
      simp only [ebind_ok]
      cases h2 : pySubscript (docGetD d "readability") "textStats" with
      | error e => rfl
      | ok stats =>
        simp only [ebind_ok]
        cases h3 : pyGet metrics "fleschReadingEase" (.num 0) with
        | error e => rfl
        | ok f =>
          simp only [ebind_ok]
          cases h4 : pyFormat1f f with
          | error e => rfl
          | ok fs =>
            simp only [ebind_ok]
            cases h5 : pyGet stats "averageReadingTime" (.num 0) with
            | error e => rfl
            | ok t =>
              simp only [ebind_ok]
              cases h6 : pyFormat1f t with
              | error e => rfl
              | ok ts =>
                simp only [ebind_ok]
                cases h7 : analyze_sentence_complexity d with
                | error e => rfl
                | ok complexity =>
                  simp only [ebind_ok]
                  cases complexity with
                  | none =>
                    simp only [epure_eq, Except.bind]
                    simp
                  | some c =>
                    by_cases h8 : 0 < c.total_sentences
                    · simp only [h8, if_true, epure_eq, Except.bind]
                      simp
                    · simp only [h8, if_false, epure_eq, Except.bind]
                      simp
  · simp only [eq_false_of_ne_true hg, Bool.false_eq_true, if_false, epure_eq,
      Except.bind]
    simp

theorem plagiarismInsightBlock_acc (d : Doc) (acc : List String) :
    plagiarismInsightBlock d acc =
      (plagiarismInsightBlock d []).bind (fun r => .ok (acc ++ r)) := by
  unfold plagiarismInsightBlock
  by_cases hg : truthy (docGetD d "plagiarism") = true
  · simp only [hg, if_true]
    cases h1 : pyGet (docGetD d "plagiarism") "score" (.num 0) with
    | error e => rfl
    | ok score =>
      simp only [ebind_ok]
      cases h2 : pyGetOpt (docGetD d "plagiarism") "matches" with
      | error e => rfl
      | ok matchesV =>
        simp only [ebind_ok]
        by_cases h3 : truthy matchesV = true
        · simp only [h3, if_true]
          cases h4 : pyLen matchesV with
          | error e => rfl
          | ok n =>
            simp only [ebind_ok, epure_eq, Except.bind]
            simp
        · simp only [h3, Bool.false_eq_true, if_false, epure_eq, Except.bind]
          simp
  · simp only [eq_false_of_ne_true hg, Bool.false_eq_true, if_false, epure_eq,
      Except.bind]
    simp

theorem gen_ok_decomp (d : Doc) (xs : List String)
    (h : generate_detailed_insights d = .ok xs) :
    ∃ a r p, aiInsightSection d = .ok a ∧ readabilityInsightSection d = .ok r ∧
      plagiarismInsightSection d = .ok p ∧ xs = a ++ r ++ p := by
  unfold generate_detailed_insights at h
  dsimp only at h
  cases ha : aiInsightBlock d [] with
  | error e => rw [ha, ebind_err] at h; exact absurd h (by simp)
  | ok a =>
    rw [ha, ebind_ok] at h
    rw [readabilityInsightBlock_acc d a] at h
    cases hr : readabilityInsightBlock d [] with
    | error e => rw [hr] at h; simp [Except.bind, ebind_err] at h
    | ok r =>
      rw [hr] at h
      simp only [Except.bind, ebind_ok] at h
      rw [plagiarismInsightBlock_acc d (a ++ r)] at h
      cases hp : plagiarismInsightBlock d [] with
      | error e => rw [hp] at h; simp [Except.bind, ebind_err] at h
      | ok p =>
        rw [hp] at h
        simp only [Except.bind, ebind_ok, epure_eq] at h
        exact ⟨a, r, p, ha, hr, hp, by
          have := Except.ok.inj h
          rw [← this, List.append_assoc]⟩

/-- C8: for every document without an `error` key on which
`generate_detailed_insights` succeeds, the insight sequence is exactly
the concatenation of the three section blocks in the fixed order
AI → Readability → Plagiarism, and a section whose document value is
absent or falsy contributes no strings at all (not even a header). -/
theorem claim_C8 (d : Doc) (xs : List String)
    (_hnoerr : docHasKey d "error" = false)
    (hok : generate_detailed_insights d = .ok xs) :
    ∃ a r p, aiInsightSection d = .ok a ∧ readabilityInsightSection d = .ok r ∧
      plagiarismInsightSection d = .ok p ∧ xs = a ++ r ++ p ∧
      (truthy (docGetD d "ai") = false → a = []) ∧
      (truthy (docGetD d "readability") = false → r = []) ∧
      (truthy (docGetD d "plagiarism") = false → p = []) := by
  obtain ⟨a, r, p, ha, hr, hp, hx⟩ := gen_ok_decomp d xs hok
  refine ⟨a, r, p, ha, hr, hp, by rw [hx, List.append_assoc], ?_, ?_, ?_⟩
  · intro hf
    have hz : aiInsightSection d = .ok [] := by
      unfold aiInsightSection aiInsightBlock
      simp [hf, epure_eq]
    rw [hz] at ha
    exact (Except.ok.inj ha).symm
  · intro hf
    have hz : readabilityInsightSection d = .ok [] := by
      unfold readabilityInsightSection readabilityInsightBlock
      simp [hf, epure_eq]
    rw [hz] at hr
    exact (Except.ok.inj hr).symm
  · intro hf
    have hz : plagiarismInsightSection d = .ok [] := by
      unfold plagiarismInsightSection plagiarismInsightBlock
      simp [hf, epure_eq]
    rw [hz] at hp
    exact (Except.ok.inj hp).symm

/-- C8 witness: for a plagiarism-only document the AI and readability
sections are empty and the whole sequence equals the plagiarism
block. -/
theorem claim_C8_witness :
    plagiarismInsightSection [("plagiarism", .obj [("score", .num 10)])] =
      .ok [plagiarismHeader, "  - Overall Score: 10%"] := by
  have hgen : generate_detailed_insights [("plagiarism", .obj [("score", .num 10)])] =
      .ok [plagiarismHeader, "  - Overall Score: 10%"] := by rfl
  obtain ⟨a, r, p, ha, hr, hp, hx, hA, hR, hP⟩ :=
    claim_C8 [("plagiarism", .obj [("score", .num 10)])]
      [plagiarismHeader, "  - Overall Score: 10%"] rfl hgen
  have ha0 : a = [] := hA rfl
  have hr0 : r = [] := hR rfl
  rw [ha0, hr0] at hx
  simp only [List.nil_append] at hx
  rw [← hx] at hp
  exact hp

theorem strLast_lit (a b : String) (c : Char) (hne : b.data ≠ [])
    (hb : strLast b = some c) : strLast (a ++ b) = some c :=
  (strLast_append a b hne).trans hb

theorem percentLine_last (q : ℚ) : strLast (percentLine q) = some 'x' := by
  unfold percentLine
  exact strLast_lit _ "% of sentences are complex" 'x' (by decide) (by decide)

theorem padDigits_one (m : Nat) :
    padDigits 1 m = String.singleton (Nat.digitChar (m % 10)) := rfl

theorem strLast_singleton (c : Char) : strLast (String.singleton c) = some c := rfl

theorem singleton_data_ne (c : Char) : (String.singleton c).data ≠ [] := by
  simp [String.singleton, String.push]

theorem strLast_padDigits_one (a : String) (m : Nat) :
    strLast (a ++ padDigits 1 m) = some (Nat.digitChar (m % 10)) := by
  rw [padDigits_one]
  exact strLast_lit _ _ _ (singleton_data_ne _) (strLast_singleton _)

theorem formatFixed1_last (q : ℚ) :
    ∃ k, strLast (formatFixed 1 q) = some (Nat.digitChar k) :=
  ⟨_, strLast_padDigits_one _ _⟩

theorem formatFixed1_data_ne (q : ℚ) : (formatFixed 1 q).data ≠ [] := by
  obtain ⟨k, hk⟩ := formatFixed1_last q
  intro h0
  rw [strLast, h0] at hk
  simp at hk

theorem strLast_append_formatFixed1 (a : String) (q : ℚ) :
    ∃ k, strLast (a ++ formatFixed 1 q) = some (Nat.digitChar k) := by
  obtain ⟨k, hk⟩ := formatFixed1_last q
  exact ⟨k, (strLast_append a _ (formatFixed1_data_ne q)).trans hk⟩

theorem percentLine_ne {s : String} (c : Char) (hs : strLast s = some c)
    (hc : c ≠ 'x') (q : ℚ) : percentLine q ≠ s := by
  intro he
  rw [← he, percentLine_last] at hs
  exact hc (Option.some.inj hs).symm

theorem pyFormat1f_shape (v : JValue) (s : String) (h : pyFormat1f v = .ok s) :
    ∃ q : ℚ, s = formatFixed 1 q := by
  cases v with
  | num q => exact ⟨q, (Except.ok.inj h).symm⟩
  | bool b => exact ⟨if b then 1 else 0, (Except.ok.inj h).symm⟩
  | null => simp [pyFormat1f] at h
  | str s2 => simp [pyFormat1f] at h
  | arr xs => simp [pyFormat1f] at h
  | obj fs => simp [pyFormat1f] at h

theorem analyze_falsy (d : Doc) (h : truthy (docGetD d "readability") = false) :
    analyze_sentence_complexity d = .ok none := by
  simp [analyze_sentence_complexity, h]

theorem complexityTotal_eq (d : Doc) (c : ComplexityAnalysis)
    (h : analyze_sentence_complexity d = .ok (some c)) :
    complexityTotal d = c.total_sentences := by
  simp [complexityTotal, h]

theorem mem_two {α : Type} {x a b : α} (h : x ∈ [a, b]) : x = a ∨ x = b := by
  rcases List.mem_cons.mp h with h1 | h1
  · exact Or.inl h1
  · rcases List.mem_cons.mp h1 with h2 | h2
    · exact Or.inr h2
    · exact absurd h2 (List.not_mem_nil _)

theorem mem_three {α : Type} {x a b c : α} (h : x ∈ [a, b, c]) :
    x = a ∨ x = b ∨ x = c := by
  rcases List.mem_cons.mp h with h1 | h1
  · exact Or.inl h1
  · exact Or.inr (mem_two h1)

theorem mem_four {α : Type} {x a b c e : α} (h : x ∈ [a, b, c, e]) :
    x = a ∨ x = b ∨ x = c ∨ x = e := by
  rcases List.mem_cons.mp h with h1 | h1
  · exact Or.inl h1
  · exact Or.inr (mem_three h1)

theorem aiInsightSection_no_percent (d : Doc) (a : List String)
    (h : aiInsightSection d = .ok a) (q : ℚ) : percentLine q ∉ a := by
  unfold aiInsightSection aiInsightBlock at h
  by_cases hg : truthy (docGetD d "ai") = true
  · simp only [hg, if_true] at h
    cases h1 : pySubscript (docGetD d "ai") "confidence" with
    | error e => rw [h1, ebind_err] at h; simp at h
    | ok ai_conf =>
    rw [h1, ebind_ok] at h
    cases h2 : pyGet ai_conf "AI" (.num 0) with
    | error e => rw [h2, ebind_err] at h; simp at h
    | ok aiRaw =>
    rw [h2, ebind_ok] at h
    cases h3 : pyMulNat aiRaw 100 with
    | error e => rw [h3, ebind_err] at h; simp at h
    | ok ai_prob =>
    rw [h3, ebind_ok] at h
    cases h4 : pyFormat1f ai_prob with
    | error e => rw [h4, ebind_err] at h; simp at h
    | ok probStr =>
    rw [h4, ebind_ok] at h
    cases h5 : pyGet (docGetD d "ai") "blocks" (.arr []) with
    | error e => rw [h5, ebind_err] at h; simp at h
    | ok blocksV =>
    rw [h5, ebind_ok] at h
    by_cases h6 : truthy blocksV = true
    · simp only [h6, if_true] at h
      cases h7 : pyIterate blocksV with
      | error e => rw [h7, ebind_err] at h; simp at h
      | ok blocks =>
      rw [h7, ebind_ok] at h
      cases h8 : highAIBlocks blocks with
      | error e => rw [h8, ebind_err] at h; simp at h
      | ok high =>
      rw [h8, ebind_ok, epure_eq] at h
      obtain rfl := Except.ok.inj h
      intro hmem
      rcases mem_three hmem with hm | hm | hm
      · exact percentLine_ne ':' (by decide) (by decide) q hm
      · exact percentLine_ne '%'
          (strLast_lit _ "%" '%' (by decide) (by decide)) (by decide) q hm
      · exact percentLine_ne 's'
          (strLast_lit _ " text blocks show strong AI characteristics" 's'
            (by decide) (by decide)) (by decide) q hm
    · simp only [h6, Bool.false_eq_true, if_false, epure_eq] at h
      obtain rfl := Except.ok.inj h
      intro hmem
      rcases mem_two hmem with hm | hm
      · exact percentLine_ne ':' (by decide) (by decide) q hm
      · exact percentLine_ne '%'
          (strLast_lit _ "%" '%' (by decide) (by decide)) (by decide) q hm
  · simp only [eq_false_of_ne_true hg, Bool.false_eq_true, if_false, epure_eq] at h
    obtain rfl := Except.ok.inj h
    exact List.not_mem_nil _

theorem plagiarismInsightSection_no_percent (d : Doc) (p : List String)
    (h : plagiarismInsightSection d = .ok p) (q : ℚ) : percentLine q ∉ p := by
  unfold plagiarismInsightSection plagiarismInsightBlock at h
  by_cases hg : truthy (docGetD d "plagiarism") = true
  · simp only [hg, if_true] at h
    cases h1 : pyGet (docGetD d "plagiarism") "score" (.num 0) with
    | error e => rw [h1, ebind_err] at h; simp at h
    | ok score =>
    rw [h1, ebind_ok] at h
    cases h2 : pyGetOpt (docGetD d "plagiarism") "matches" with
    | error e => rw [h2, ebind_err] at h; simp at h
    | ok matchesV =>
    rw [h2, ebind_ok] at h
    by_cases h3 : truthy matchesV = true
    · simp only [h3, if_true] at h
      cases h4 : pyLen matchesV with
      | error e => rw [h4, ebind_err] at h; simp at h
      | ok n =>
      rw [h4, ebind_ok, epure_eq] at h
      obtain rfl := Except.ok.inj h
      intro hmem
      rcases mem_three hmem with hm | hm | hm
      · exact percentLine_ne ':' (by decide) (by decide) q hm
      · exact percentLine_ne '%'
          (strLast_lit _ "%" '%' (by decide) (by decide)) (by decide) q hm
      · exact percentLine_ne 's'
          (strLast_lit _ " potential matches" 's' (by decide) (by decide))
          (by decide) q hm
    · simp only [h3, Bool.false_eq_true, if_false, epure_eq] at h
      obtain rfl := Except.ok.inj h
      intro hmem
      rcases mem_two hmem with hm | hm
      · exact percentLine_ne ':' (by decide) (by decide) q hm
      · exact percentLine_ne '%'
          (strLast_lit _ "%" '%' (by decide) (by decide)) (by decide) q hm
  · simp only [eq_false_of_ne_true hg, Bool.false_eq_true, if_false, epure_eq] at h
    obtain rfl := Except.ok.inj h
    exact List.not_mem_nil _

theorem readabilityInsightSection_shape (d : Doc) (r : List String)
    (h : readabilityInsightSection d = .ok r) :
    (truthy (docGetD d "readability") = false ∧ r = []) ∨
    ∃ q1 q2 : ℚ,
      (∃ c : ComplexityAnalysis, analyze_sentence_complexity d = .ok (some c) ∧
        0 < c.total_sentences ∧
        r = [readabilityHeader, "  - Flesch Reading Ease: " ++ formatFixed 1 q1,
          "  - Average Reading Time: " ++ formatFixed 1 q2 ++ " minutes",
          percentLine (((c.hard_sentences : ℚ) + c.very_hard_sentences) /
            c.total_sentences * 100)]) ∨
      (complexityTotal d = 0 ∧
        r = [readabilityHeader, "  - Flesch Reading Ease: " ++ formatFixed 1 q1,
          "  - Average Reading Time: " ++ formatFixed 1 q2 ++ " minutes"]) := by
  unfold readabilityInsightSection readabilityInsightBlock at h
  by_cases hg : truthy (docGetD d "readability") = true
  · simp only [hg, if_true] at h
    cases h1 : pySubscript (docGetD d "readability") "readability" with
    | error e => rw [h1, ebind_err] at h; simp at h
    | ok metrics =>
    rw [h1, ebind_ok] at h
    cases h2 : pySubscript (docGetD d "readability") "textStats" with
    | error e => rw [h2, ebind_err] at h; simp at h
    | ok stats =>
    rw [h2, ebind_ok] at h
    cases h3 : pyGet metrics "fleschReadingEase" (.num 0) with
    | error e => rw [h3, ebind_err] at h; simp at h
    | ok f =>
    rw [h3, ebind_ok] at h
    cases h4 : pyFormat1f f with
    | error e => rw [h4, ebind_err] at h; simp at h
    | ok fs =>
    rw [h4, ebind_ok] at h
    cases h5 : pyGet stats "averageReadingTime" (.num 0) with
    | error e => rw [h5, ebind_err] at h; simp at h
    | ok t =>
    rw [h5, ebind_ok] at h
    cases h6 : pyFormat1f t with
    | error e => rw [h6, ebind_err] at h; simp at h
    | ok ts =>
    rw [h6, ebind_ok] at h
    obtain ⟨q1, rfl⟩ := pyFormat1f_shape f fs h4
    obtain ⟨q2, rfl⟩ := pyFormat1f_shape t ts h6
    cases h7 : analyze_sentence_complexity d with
    | error e => rw [h7, ebind_err] at h; simp at h
    | ok complexity =>
    rw [h7, ebind_ok] at h
    cases complexity with
    | none =>
      rw [epure_eq] at h
      obtain rfl := Except.ok.inj h
      refine Or.inr ⟨q1, q2, Or.inr ⟨?_, rfl⟩⟩
      simp [complexityTotal, h7]
    | some c =>
      by_cases h8 : 0 < c.total_sentences
      · simp only [h8, if_true, epure_eq] at h
        obtain rfl := Except.ok.inj h
        exact Or.inr ⟨q1, q2, Or.inl ⟨c, rfl, h8, rfl⟩⟩
      · simp only [h8, if_false, epure_eq] at h
        obtain rfl := Except.ok.inj h
        refine Or.inr ⟨q1, q2, Or.inr ⟨?_, rfl⟩⟩
        rw [complexityTotal_eq d c h7]
        omega
  · simp only [eq_false_of_ne_true hg, Bool.false_eq_true, if_false, epure_eq] at h
    obtain rfl := Except.ok.inj h
    exact Or.inl ⟨eq_false_of_ne_true hg, rfl⟩

/-- C4: for every document whose readability section is present and on
which the insight generation succeeds, the insight sequence contains a
percent-complex line — `(hard + very_hard) / total * 100` to one
decimal — if and only if `total_sentences > 0`; when the total is 0 the
line is omitted entirely (no section of the sequence ever renders a
percent-complex line, not even as 0%). -/
theorem claim_C4 (d : Doc) (xs : List String)
    (_hpres : docHasKey d "readability" = true)
    (hok : generate_detailed_insights d = .ok xs) :
    ((∃ q : ℚ, percentLine q ∈ xs) ↔ 0 < complexityTotal d) ∧
    (∀ c : ComplexityAnalysis, analyze_sentence_complexity d = .ok (some c) →
      0 < c.total_sentences →
      percentLine (((c.hard_sentences : ℚ) + c.very_hard_sentences) /
        c.total_sentences * 100) ∈ xs) := by
  obtain ⟨a, r, p, ha, hr, hp, hx⟩ := gen_ok_decomp d xs hok
  subst hx
  have hshape := readabilityInsightSection_shape d r hr
  have hmem2 : ∀ c : ComplexityAnalysis,
      analyze_sentence_complexity d = .ok (some c) → 0 < c.total_sentences →
      percentLine (((c.hard_sentences : ℚ) + c.very_hard_sentences) /
        c.total_sentences * 100) ∈ a ++ r ++ p := by
    intro c hA hct
    rcases hshape with ⟨hf, rfl⟩ | ⟨q1, q2, hcase⟩
    · rw [analyze_falsy d hf] at hA
      simp at hA
    · rcases hcase with ⟨c2, hA2, hct2, rfl⟩ | ⟨h0, rfl⟩
      · have hcc : c2 = c := by
          rw [hA] at hA2
          exact (Option.some.inj (Except.ok.inj hA2)).symm
        subst hcc
        apply List.mem_append.mpr
        left
        apply List.mem_append.mpr
        right
        exact List.mem_cons.mpr (Or.inr (List.mem_cons.mpr (Or.inr
          (List.mem_cons.mpr (Or.inr (List.mem_cons.mpr (Or.inl rfl)))))))
      · rw [complexityTotal_eq d c hA] at h0
        omega
  refine ⟨⟨?_, ?_⟩, hmem2⟩
  · rintro ⟨q, hq⟩
    by_contra hle
    have h0 : complexityTotal d = 0 := by omega
    rcases List.mem_append.mp hq with hq1 | hq1
    · rcases List.mem_append.mp hq1 with hq2 | hq2
      · exact aiInsightSection_no_percent d a ha q hq2
      · rcases hshape with ⟨hf, rfl⟩ | ⟨q1, q2, hcase⟩
        · exact List.not_mem_nil _ hq2
        · rcases hcase with ⟨c2, hA2, hct2, rfl⟩ | ⟨h02, rfl⟩
          · rw [complexityTotal_eq d c2 hA2] at h0
            omega
          · rcases mem_three hq2 with hm | hm | hm
            · exact percentLine_ne ':' (by decide) (by decide) q hm
            · obtain ⟨k, hk⟩ :=
                strLast_append_formatFixed1 "  - Flesch Reading Ease: " q1
              exact percentLine_ne _ hk (digitChar_ne_x k) q hm
            · exact percentLine_ne 's'
                (strLast_lit _ " minutes" 's' (by decide) (by decide))
                (by decide) q hm
    · exact plagiarismInsightSection_no_percent d p hp q hq1
  · intro hpos
    have hex : ∃ c, analyze_sentence_complexity d = .ok (some c) ∧
        0 < c.total_sentences := by
      unfold complexityTotal at hpos
      cases hA : analyze_sentence_complexity d with
      | error e => rw [hA] at hpos; simp at hpos
      | ok o =>
        cases o with
        | none => rw [hA] at hpos; simp at hpos
        | some c =>
          refine ⟨c, rfl, ?_⟩
          rw [hA] at hpos
          simpa using hpos
    obtain ⟨c, hA, hct⟩ := hex
    exact ⟨_, hmem2 c hA hct⟩

/-- C4 witness: six sentences, two hard and one very hard (none
overlapping), give the complexity summary `{total: 6, hard: 2,
very_hard: 1}` and the insight line `50.0% of sentences are
complex`. -/
theorem claim_C4_witness :
    analyze_sentence_complexity [("readability", .obj
      [("readability", .obj [("fleschReadingEase", .num 60)]),
       ("textStats", .obj [("averageReadingTime", .num 3)]),
       ("sentences", .arr [(SentenceRecord.mk true false [] []).toJ,
         (SentenceRecord.mk true false [] []).toJ,
         (SentenceRecord.mk false true [] []).toJ,
         (SentenceRecord.mk false false [] []).toJ,
         (SentenceRecord.mk false false [] []).toJ,
         (SentenceRecord.mk false false [] []).toJ])])] =
      .ok (some ⟨6, 2, 1, 0, 0⟩) ∧
    percentLine 50 = "  - 50.0% of sentences are complex" ∧
    percentLine 50 ∈ [readabilityHeader, "  - Flesch Reading Ease: 60.0",
      "  - Average Reading Time: 3.0 minutes",
      "  - 50.0% of sentences are complex"] := by
  have hana : analyze_sentence_complexity [("readability", .obj
      [("readability", .obj [("fleschReadingEase", .num 60)]),
       ("textStats", .obj [("averageReadingTime", .num 3)]),
       ("sentences", .arr [(SentenceRecord.mk true false [] []).toJ,
         (SentenceRecord.mk true false [] []).toJ,
         (SentenceRecord.mk false true [] []).toJ,
         (SentenceRecord.mk false false [] []).toJ,
         (SentenceRecord.mk false false [] []).toJ,
         (SentenceRecord.mk false false [] []).toJ])])] =
      .ok (some ⟨6, 2, 1, 0, 0⟩) := by rfl
  have hgen : generate_detailed_insights [("readability", .obj
      [("readability", .obj [("fleschReadingEase", .num 60)]),
       ("textStats", .obj [("averageReadingTime", .num 3)]),
       ("sentences", .arr [(SentenceRecord.mk true false [] []).toJ,
         (SentenceRecord.mk true false [] []).toJ,
         (SentenceRecord.mk false true [] []).toJ,
         (SentenceRecord.mk false false [] []).toJ,
         (SentenceRecord.mk false false [] []).toJ,
         (SentenceRecord.mk false false [] []).toJ])])] =
      .ok [readabilityHeader, "  - Flesch Reading Ease: 60.0",
        "  - Average Reading Time: 3.0 minutes",
        "  - 50.0% of sentences are complex"] := by with_unfolding_all rfl
  have hpres : docHasKey [("readability", JValue.obj
      [("readability", .obj [("fleschReadingEase", .num 60)]),
       ("textStats", .obj [("averageReadingTime", .num 3)]),
       ("sentences", .arr [(SentenceRecord.mk true false [] []).toJ,
         (SentenceRecord.mk true false [] []).toJ,
         (SentenceRecord.mk false true [] []).toJ,
         (SentenceRecord.mk false false [] []).toJ,
         (SentenceRecord.mk false false [] []).toJ,
         (SentenceRecord.mk false false [] []).toJ])])] "readability" = true := rfl
  have h := (claim_C4 _ _ hpres hgen).2 ⟨6, 2, 1, 0, 0⟩ hana (by decide)
  have hval : (((2 : ℕ) : ℚ) + ((1 : ℕ) : ℚ)) / ((6 : ℕ) : ℚ) * 100 = 50 := by
    norm_num
  rw [hval] at h
  exact ⟨hana, by with_unfolding_all rfl, h⟩
